import Mathlib

/-!
Shallow embedding of the job-lifecycle core of the collage-maker frontend
(components collage-maker.tsx, configuration-panel.tsx, file-upload.tsx and
lib/api.ts).  The repository ships several concatenated revisions of the
components; the definitions below follow the newest revision (the one that
matches lib/types.ts: px/mm form modes, grid optimization, output-format
aware download).  Where an older revision decides a property it is embedded
separately under a Legacy suffix.

Modelling conventions:
* browser File objects are records of the fields the code reads (name, size,
  MIME type);
* object URLs (createObjectURL / revokeObjectURL) are tracked in an explicit
  environment of created and revoked handle strings;
* toast notifications are explicit events returned by each handler;
* network requests issued by a handler are returned as an explicit list;
* JS falsiness of numbers (0 is falsy) and of strings ("" is falsy) is
  modelled at each guard exactly as the source checks it.
-/

/-- Job status enum from lib/types.ts: "pending" | "processing" | "completed" | "failed". -/
inductive JobStatus where
  | pending
  | processing
  | completed
  | failed
deriving DecidableEq, Repr

/-- CollageJob record from lib/types.ts. -/
structure CollageJob where
  job_id : String
  status : JobStatus
  created_at : String
  completed_at : Option String := none
  output_file : Option String := none
  error_message : Option String := none
  progress : Nat
deriving DecidableEq, Repr

/-- Browser File object, restricted to the fields the frontend reads. -/
structure FileRec where
  name : String
  size : Nat
  type : String
deriving DecidableEq, Repr

/-- FileWithPreview from lib/types.ts: a File plus its object-URL preview and client id. -/
structure FileWithPreview where
  file : FileRec
  preview : String
  id : String
deriving DecidableEq, Repr

/-- Kind of a toast notification (sonner calls in the source). -/
inductive ToastKind where
  | success
  | error
  | info
deriving DecidableEq, Repr

/-- A toast notification event emitted by a handler. -/
structure Toast where
  kind : ToastKind
  message : String
deriving DecidableEq, Repr

/-- The refetchInterval callback of the job-status useQuery in collage-maker.tsx:
returns false (modelled as none) when the last observed status is completed or
failed, and 2000 ms otherwise.  The argument is the last observed job snapshot's
status (query.state.data?.status), absent when no response has been observed. -/
def refetchInterval (data : Option JobStatus) : Option Nat :=
  if data = some JobStatus.completed ∨ data = some JobStatus.failed then
    none
  else
    some 2000

/-- C1: the poll refetch-interval function returns false (none, i.e. the timer is
cancelled and no further status request is scheduled for the job) exactly when
the last observed status is completed or failed, and returns 2000 ms otherwise. -/
theorem refetchInterval_stops_iff_terminal :
    ∀ data : Option JobStatus,
      (refetchInterval data = none ↔
        data = some JobStatus.completed ∨ data = some JobStatus.failed) ∧
      (¬(data = some JobStatus.completed ∨ data = some JobStatus.failed) →
        refetchInterval data = some 2000) := by
  intro d
  unfold refetchInterval
  constructor
  · split <;> simp_all
  · intro h
    split <;> simp_all

/-- Witness for C1 at concrete inputs: a processing status keeps the 2000 ms
interval, while a completed status cancels the timer. -/
theorem refetchInterval_stops_iff_terminal_witness :
    refetchInterval (some JobStatus.processing) = some 2000 ∧
    refetchInterval (some JobStatus.completed) = none :=
  ⟨(refetchInterval_stops_iff_terminal (some JobStatus.processing)).2 (by decide),
   (refetchInterval_stops_iff_terminal (some JobStatus.completed)).1.mpr (Or.inl rfl)⟩

/-- CurrentGrid from lib/types.ts. -/
structure CurrentGrid where
  total_images : Nat
  cols : Nat
  rows : Nat
  images_in_last_row : Nat
  is_perfect : Bool
deriving DecidableEq, Repr

/-- PerfectGridOption from lib/types.ts; images_needed / images_to_remove are
optional and only present for the matching type. -/
structure PerfectGridOption where
  type : String
  total_images : Nat
  cols : Nat
  rows : Nat
  images_needed : Option Nat := none
  images_to_remove : Option Nat := none
deriving DecidableEq, Repr

/-- GridOption from lib/types.ts. -/
structure GridOption where
  images_needed : Option Nat := none
  images_to_remove : Option Nat := none
  total_images : Nat
  cols : Nat
  rows : Nat
deriving DecidableEq, Repr

/-- CanvasInfo from lib/types.ts. -/
structure CanvasInfo where
  width : Nat
  height : Nat
  spacing : Rat
deriving DecidableEq, Repr

/-- Recommendations field of GridOptimizationData from lib/types.ts. -/
structure GridRecommendations where
  add_images : List GridOption
  remove_images : List GridOption
deriving DecidableEq, Repr

/-- GridOptimizationData from lib/types.ts. -/
structure GridOptimizationData where
  current_grid : CurrentGrid
  closest_perfect_grid : PerfectGridOption
  recommendations : GridRecommendations
  canvas_info : CanvasInfo
deriving DecidableEq, Repr

/-- OutputFormat enum from lib/types.ts: "jpeg" | "png" | "tiff". -/
inductive OutputFormat where
  | jpeg
  | png
  | tiff
deriving DecidableEq, Repr

/-- Wire name of an output format. -/
def OutputFormat.wireName : OutputFormat → String
  | OutputFormat.jpeg => "jpeg"
  | OutputFormat.png => "png"
  | OutputFormat.tiff => "tiff"

/-- CollageFormConfig from lib/types.ts (form payload handed to the submit
handlers; numeric JS values modelled as rationals).  The source field
maintain_aspect_ratio is embedded as maintain_aspect. -/
structure CollageFormConfig where
  mode : String
  width_mm : Option Rat := none
  height_mm : Option Rat := none
  width_px : Option Rat := none
  height_px : Option Rat := none
  dpi : Rat
  layout_style : String
  spacing : Rat
  background_color : String
  maintain_aspect : Bool
  apply_shadow : Bool
  output_format : Option OutputFormat := none
  transparency : Option Bool := none
deriving DecidableEq, Repr

/-- Local state of the CollageMaker component (newest revision): the uploaded
file set, the current job, the output format remembered at submission, and the
grid-optimization panel state. -/
structure MakerState where
  files : List FileWithPreview
  currentJob : Option CollageJob
  currentOutputFormat : String
  gridOptimization : Option GridOptimizationData
  showGridOptimization : Bool
deriving DecidableEq, Repr

/-- Network requests a handler can issue (apiClient calls in collage-maker.tsx). -/
inductive NetworkRequest where
  | createMm (config : CollageFormConfig) (files : List FileRec)
  | createPx (config : CollageFormConfig) (files : List FileRec)
  | statusOf (jobId : String)
  | download (jobId : String)
deriving DecidableEq, Repr

/-- The handleCreateCollage handler of collage-maker.tsx (newest revision):
refuses with a toast when fewer than 2 files are present; otherwise remembers
the output format for download and issues the matching create request (px or
mm mode).  Returns the new state, the toasts shown, and the requests issued. -/
def handleCreateCollage (s : MakerState) (config : CollageFormConfig) :
    MakerState × List Toast × List NetworkRequest :=
  if s.files.length < 2 then
    (s, [⟨ToastKind.error, "Please upload at least 2 images"⟩], [])
  else
    let s1 : MakerState :=
      { s with currentOutputFormat :=
          ((config.output_format).map OutputFormat.wireName).getD "jpeg" }
    if config.mode = "px" then
      (s1, [], [NetworkRequest.createPx config (s1.files.map (fun f => f.file))])
    else
      (s1, [], [NetworkRequest.createMm config (s1.files.map (fun f => f.file))])

/-- C3: for every uploaded-file set with fewer than 2 entries, collage creation
is refused before any network call: no create request is issued and the whole
component state (files, current job, remembered format, grid panel) is
unchanged; only an error toast is shown. -/
theorem handleCreateCollage_refuses_below_two :
    ∀ (s : MakerState) (config : CollageFormConfig),
      s.files.length < 2 →
      handleCreateCollage s config =
        (s, [⟨ToastKind.error, "Please upload at least 2 images"⟩], []) := by
  intro s config h
  unfold handleCreateCollage
  simp [h]

/-- Witness for C3: a state holding a single uploaded file refuses submission
with no request issued and no state change. -/
theorem handleCreateCollage_refuses_below_two_witness :
    handleCreateCollage
        { files := [⟨⟨"a.jpg", 100, "image/jpeg"⟩, "blob:1", "a-1"⟩],
          currentJob := none,
          currentOutputFormat := "jpeg",
          gridOptimization := none,
          showGridOptimization := false }
        { mode := "mm", width_mm := some 150, height_mm := some 100,
          dpi := 150, layout_style := "grid", spacing := 30,
          background_color := "#FFFFFF", maintain_aspect := true,
          apply_shadow := false, output_format := some OutputFormat.jpeg,
          transparency := some false } =
      ({ files := [⟨⟨"a.jpg", 100, "image/jpeg"⟩, "blob:1", "a-1"⟩],
         currentJob := none,
         currentOutputFormat := "jpeg",
         gridOptimization := none,
         showGridOptimization := false },
       [⟨ToastKind.error, "Please upload at least 2 images"⟩], []) :=
  handleCreateCollage_refuses_below_two _ _ (by decide)

/-- The useEffect of collage-maker.tsx that reacts to a new poll result: when
jobStatus is non-null it is stored wholesale into currentJob and a completion
or failure toast is shown; a null jobStatus leaves the state alone. -/
def applyJobStatusEffect (s : MakerState) (jobStatus : Option CollageJob) :
    MakerState × List Toast :=
  match jobStatus with
  | none => (s, [])
  | some j =>
      ({ s with currentJob := some j },
       if j.status = JobStatus.completed then
         [⟨ToastKind.success, "Collage completed successfully!"⟩]
       else if j.status = JobStatus.failed then
         [⟨ToastKind.error,
           "Collage creation failed: " ++ (j.error_message).getD ""⟩]
       else [])

/-- The job rendered by the JobStatus panel: jobStatus ?? currentJob. -/
def displayedJob (jobStatus : Option CollageJob) (currentJob : Option CollageJob) :
    Option CollageJob :=
  match jobStatus with
  | some j => some j
  | none => currentJob

/-- Counterexample to C2: with a completed job displayed, delivering one more
poll response whose status is pending is applied unconditionally by the effect,
and the displayed status regresses from completed back to pending.  The state
update has no terminal-precedence check. -/
theorem displayed_status_regresses_on_stale_response :
    (displayedJob
        (some { job_id := "j1", status := JobStatus.completed,
                created_at := "t0", progress := 100 })
        (some { job_id := "j1", status := JobStatus.completed,
                created_at := "t0", progress := 100 })).map CollageJob.status
      = some JobStatus.completed
    ∧
    ((applyJobStatusEffect
        { files := [], currentJob :=
            some { job_id := "j1", status := JobStatus.completed,
                   created_at := "t0", progress := 100 },
          currentOutputFormat := "jpeg", gridOptimization := none,
          showGridOptimization := false }
        (some { job_id := "j1", status := JobStatus.pending,
                created_at := "t0", progress := 0 })).1.currentJob).map
        CollageJob.status = some JobStatus.pending
    ∧
    (displayedJob
        (some { job_id := "j1", status := JobStatus.pending,
                created_at := "t0", progress := 0 })
        (some { job_id := "j1", status := JobStatus.completed,
                created_at := "t0", progress := 100 })).map CollageJob.status
      = some JobStatus.pending := by
  refine ⟨rfl, rfl, rfl⟩

/-- C2 amended: the effect applies every non-null poll response unconditionally
(last-write-wins): after a response j is delivered, both the stored current job
and the displayed job equal j, whatever was displayed before — there is no
precedence of terminal states over stale responses.  Non-regression therefore
holds only for deliveries in which no pending/processing response arrives after
a terminal one (which the refetch gating of C1 provides when responses arrive
in issuance order). -/
theorem applyJobStatusEffect_last_write_wins :
    ∀ (s : MakerState) (j : CollageJob),
      (applyJobStatusEffect s (some j)).1.currentJob = some j ∧
      displayedJob (some j) s.currentJob = some j := by
  intro s j
  exact ⟨rfl, rfl⟩

/-- The handleRemoveImagesForOptimization handler of collage-maker.tsx.  The
guard mirrors the JS falsiness check on images_to_remove (absent or 0 is a
no-op); otherwise files.slice(0, files.length - imagesToRemove) truncates the
list (Nat subtraction also matches the JS behaviour for imagesToRemove above
the length, where slice with a negative end yields the empty list). -/
def handleRemoveImagesForOptimization (s : MakerState) : MakerState × List Toast :=
  match s.gridOptimization with
  | none => (s, [])
  | some g =>
    match g.closest_perfect_grid.images_to_remove with
    | none => (s, [])
    | some n =>
      if n = 0 then (s, [])
      else
        ({ s with files := s.files.take (s.files.length - n),
                  gridOptimization := none,
                  showGridOptimization := false },
         [⟨ToastKind.success,
           "Removed " ++ toString n ++ " image(s) for perfect grid"⟩])

/-- The handleAddImagesForOptimization handler of collage-maker.tsx.  The guard
mirrors the JS falsiness check on images_needed; the refusal threshold in the
source is the literal 200, not the MAX_FILES upload bound. -/
def handleAddImagesForOptimization (s : MakerState) : MakerState × List Toast :=
  match s.gridOptimization with
  | none => (s, [])
  | some g =>
    match g.closest_perfect_grid.images_needed with
    | none => (s, [])
    | some k =>
      if k = 0 then (s, [])
      else if s.files.length + k > 200 then
        (s, [⟨ToastKind.error, "Cannot add images"⟩])
      else
        ({ s with gridOptimization := none, showGridOptimization := false },
         [⟨ToastKind.info,
           "Please add " ++ toString k ++ " more image(s) for perfect grid"⟩])

/-- C6: with a remove_images suggestion of N (0 < N and N at most the file
count), the remove action keeps exactly the first length - N files in their
original order: the result is the take of the original list, its length is
length - N, it is a prefix of the original list, and appending the dropped
final N files restores the original list. -/
theorem handleRemoveImages_truncates_suffix :
    ∀ (s : MakerState) (g : GridOptimizationData) (n : Nat),
      s.gridOptimization = some g →
      g.closest_perfect_grid.images_to_remove = some n →
      0 < n → n ≤ s.files.length →
      (handleRemoveImagesForOptimization s).1.files
          = s.files.take (s.files.length - n) ∧
      (handleRemoveImagesForOptimization s).1.files.length
          = s.files.length - n ∧
      (handleRemoveImagesForOptimization s).1.files <+: s.files ∧
      (handleRemoveImagesForOptimization s).1.files
          ++ s.files.drop (s.files.length - n) = s.files ∧
      (s.files.drop (s.files.length - n)).length = n := by
  intro s g n hg hn hpos hle
  have hne : n ≠ 0 := Nat.pos_iff_ne_zero.mp hpos
  have hstep : (handleRemoveImagesForOptimization s).1.files
      = s.files.take (s.files.length - n) := by
    simp only [handleRemoveImagesForOptimization, hg, hn, if_neg hne]
  rw [hstep]
  refine ⟨rfl, ?_, ?_, ?_, ?_⟩
  · simp [List.length_take]
  · exact List.take_prefix _ _
  · exact List.take_append_drop _ _
  · simp [List.length_drop]
    omega

/-- Witness for C6: a three-file list with a remove-1 suggestion keeps exactly
the first two files. -/
theorem handleRemoveImages_truncates_suffix_witness :
    (handleRemoveImagesForOptimization
        { files := [⟨⟨"a.jpg", 10, "image/jpeg"⟩, "blob:1", "a-1"⟩,
                    ⟨⟨"b.jpg", 10, "image/jpeg"⟩, "blob:2", "b-2"⟩,
                    ⟨⟨"c.jpg", 10, "image/jpeg"⟩, "blob:3", "c-3"⟩],
          currentJob := none, currentOutputFormat := "jpeg",
          gridOptimization := some
            { current_grid := ⟨3, 2, 2, 1, false⟩,
              closest_perfect_grid :=
                { type := "remove_images", total_images := 2, cols := 2,
                  rows := 1, images_to_remove := some 1 },
              recommendations := ⟨[], []⟩,
              canvas_info := ⟨1000, 800, 30⟩ },
          showGridOptimization := true }).1.files
      = [⟨⟨"a.jpg", 10, "image/jpeg"⟩, "blob:1", "a-1"⟩,
         ⟨⟨"b.jpg", 10, "image/jpeg"⟩, "blob:2", "b-2"⟩] :=
  (handleRemoveImages_truncates_suffix _ _ 1 rfl rfl (by decide) (by decide)).1

/-- MAX_FILES constant of file-upload.tsx: the hard upload ceiling. -/
def MAX_FILES : Nat := 100

/-- MAX_FILE_SIZE constant of file-upload.tsx: 10MB per file. -/
def MAX_FILE_SIZE : Nat := 10 * 1024 * 1024

/-- TOTAL_MAX_SIZE constant of file-upload.tsx: 500MB aggregate. -/
def TOTAL_MAX_SIZE : Nat := 500 * 1024 * 1024

/-- ACCEPTED_TYPES constant of file-upload.tsx. -/
def ACCEPTED_TYPES : List String :=
  ["image/jpeg", "image/png", "image/gif", "image/bmp", "image/tiff",
   "image/webp"]

/-- Concrete state probing the add-images guardrail: 95 uploaded files and an
add_images suggestion of 10, so the suggested total 105 exceeds the MAX_FILES
upload ceiling of 100 but not the literal 200 the handler checks. -/
def addImagesProbeState : MakerState :=
  { files := List.replicate 95 ⟨⟨"a.jpg", 100, "image/jpeg"⟩, "blob:1", "a-1"⟩,
    currentJob := none,
    currentOutputFormat := "jpeg",
    gridOptimization := some
      { current_grid := ⟨95, 10, 10, 5, false⟩,
        closest_perfect_grid :=
          { type := "add_images", total_images := 105, cols := 7,
            rows := 15, images_needed := some 10 },
        recommendations := ⟨[], []⟩,
        canvas_info := ⟨1000, 800, 30⟩ },
    showGridOptimization := true }

/-- Counterexample to C7: with 95 uploaded files and an add-images suggestion
of 10, the suggested total 105 exceeds the hard upload ceiling MAX_FILES = 100,
yet the action is not refused: it emits an info toast (not an error) and
mutates the state by clearing the suggestion, because the handler compares
against the literal 200 instead of MAX_FILES. -/
theorem addImages_not_refused_beyond_upload_ceiling :
    addImagesProbeState.files.length + 10 > MAX_FILES ∧
    (handleAddImagesForOptimization addImagesProbeState).2
      = [⟨ToastKind.info, "Please add 10 more image(s) for perfect grid"⟩] ∧
    (handleAddImagesForOptimization addImagesProbeState).1.gridOptimization
      = none ∧
    (handleAddImagesForOptimization addImagesProbeState).1
      ≠ addImagesProbeState := by
  refine ⟨by decide, rfl, rfl, by decide⟩

/-- C7 amended: the add-images action is refused with an error toast and no
state change exactly when currentCount + K exceeds 200 (the literal in the
handler, not the MAX_FILES = 100 upload ceiling); otherwise it only advises
the user with an info toast and clears the suggestion, and in every case it
never adds a file itself. -/
theorem handleAddImages_refusal_characterization :
    ∀ (s : MakerState) (g : GridOptimizationData) (k : Nat),
      s.gridOptimization = some g →
      g.closest_perfect_grid.images_needed = some k →
      0 < k →
      (s.files.length + k > 200 →
        handleAddImagesForOptimization s
          = (s, [⟨ToastKind.error, "Cannot add images"⟩])) ∧
      (¬ s.files.length + k > 200 →
        handleAddImagesForOptimization s
          = ({ s with gridOptimization := none, showGridOptimization := false },
             [⟨ToastKind.info,
               "Please add " ++ toString k ++ " more image(s) for perfect grid"⟩])) ∧
      (handleAddImagesForOptimization s).1.files = s.files := by
  intro s g k hg hk hpos
  have hne : k ≠ 0 := Nat.pos_iff_ne_zero.mp hpos
  refine ⟨?_, ?_, ?_⟩
  · intro hover
    simp only [handleAddImagesForOptimization, hg, hk, if_neg hne, if_pos hover]
  · intro hunder
    simp only [handleAddImagesForOptimization, hg, hk, if_neg hne, if_neg hunder]
  · by_cases hover : s.files.length + k > 200
    · simp only [handleAddImagesForOptimization, hg, hk, if_neg hne, if_pos hover]
    · simp only [handleAddImagesForOptimization, hg, hk, if_neg hne, if_neg hover]

/-- Witness for the amended C7 at concrete inputs: with 2 files and a
suggestion of 3 the action advises (no refusal) and adds no file; the theorem
also applies to the refusal side through the probe state of 199 files and a
suggestion of 2. -/
theorem handleAddImages_refusal_characterization_witness :
    (handleAddImagesForOptimization
        { files := [⟨⟨"a.jpg", 10, "image/jpeg"⟩, "blob:1", "a-1"⟩,
                    ⟨⟨"b.jpg", 10, "image/jpeg"⟩, "blob:2", "b-2"⟩],
          currentJob := none, currentOutputFormat := "jpeg",
          gridOptimization := some
            { current_grid := ⟨2, 2, 1, 0, false⟩,
              closest_perfect_grid :=
                { type := "add_images", total_images := 5, cols := 5,
                  rows := 1, images_needed := some 3 },
              recommendations := ⟨[], []⟩,
              canvas_info := ⟨1000, 800, 30⟩ },
          showGridOptimization := true }).2
      = [⟨ToastKind.info, "Please add 3 more image(s) for perfect grid"⟩] := by
  have h := (handleAddImages_refusal_characterization
      { files := [⟨⟨"a.jpg", 10, "image/jpeg"⟩, "blob:1", "a-1"⟩,
                  ⟨⟨"b.jpg", 10, "image/jpeg"⟩, "blob:2", "b-2"⟩],
        currentJob := none, currentOutputFormat := "jpeg",
        gridOptimization := some
          { current_grid := ⟨2, 2, 1, 0, false⟩,
            closest_perfect_grid :=
              { type := "add_images", total_images := 5, cols := 5,
                rows := 1, images_needed := some 3 },
            recommendations := ⟨[], []⟩,
            canvas_info := ⟨1000, 800, 30⟩ },
        showGridOptimization := true }
      _ 3 rfl rfl (by decide)).2.1 (by decide)
  rw [h]
  rfl

/-- validateFile of file-upload.tsx: an error message for an unaccepted MIME
type or a file above MAX_FILE_SIZE, none for an accepted file.  The type check
comes first, exactly as in the source. -/
def validateFile (file : FileRec) : Option String :=
  if ¬ file.type ∈ ACCEPTED_TYPES then
    some ("Invalid file type: " ++ file.type ++
      ". Only JPEG, PNG, GIF, BMP, TIFF, and WebP are allowed.")
  else if file.size > MAX_FILE_SIZE then
    some ("File too large: " ++ file.name ++ ". Maximum size is 10MB.")
  else
    none

/-- The per-file forEach loop of processFiles: accumulates accepted files (with
generated id and preview; gen k supplies the id/preview pair of the k-th
accepted file, standing for Date.now/Math.random/createObjectURL) and the
error messages of rejected files, in input order. -/
def processLoop (gen : Nat → String × String) (k : Nat) :
    List FileRec → List FileWithPreview × List String
  | [] => ([], [])
  | file :: rest =>
    match validateFile file with
    | some e =>
      let r := processLoop gen k rest
      (r.1, e :: r.2)
    | none =>
      let idPrev := gen k
      let r := processLoop gen (k + 1) rest
      (⟨file, idPrev.2, idPrev.1⟩ :: r.1, r.2)

/-- processFiles of file-upload.tsx: refuses the whole batch when the combined
count exceeds MAX_FILES or the combined byte size exceeds TOTAL_MAX_SIZE;
otherwise validates files one by one, appends the accepted ones and reports
each rejection.  Returns the new file list and the toasts shown. -/
def processFiles (gen : Nat → String × String) (files : List FileWithPreview)
    (fileList : List FileRec) : List FileWithPreview × List Toast :=
  if files.length + fileList.length > MAX_FILES then
    (files, [⟨ToastKind.error, "Too many files. Maximum 100 files allowed."⟩])
  else
    let currentTotalSize := files.foldl (fun sum f => sum + f.file.size) 0
    let newFilesSize := fileList.foldl (fun sum f => sum + f.size) 0
    if currentTotalSize + newFilesSize > TOTAL_MAX_SIZE then
      (files, [⟨ToastKind.error, "Total file size exceeds 500MB limit."⟩])
    else
      let r := processLoop gen 0 fileList
      let errorToasts := r.2.map (fun e => Toast.mk ToastKind.error e)
      let successToasts :=
        if r.1.length > 0 then
          [⟨ToastKind.success, "Added " ++ toString r.1.length ++ " file(s)"⟩]
        else []
      let files1 := if r.1.length > 0 then files ++ r.1 else files
      (files1, errorToasts ++ successToasts)

/-- Helper: the per-file loop accepts exactly the files passing validateFile
(keeping input order) and collects exactly the error messages of the rejected
ones, independently of the id/preview supply. -/
theorem processLoop_spec (gen : Nat → String × String) :
    ∀ (fl : List FileRec) (k : Nat),
      (processLoop gen k fl).1.map FileWithPreview.file
        = fl.filter (fun f => (validateFile f).isNone) ∧
      (processLoop gen k fl).2 = fl.filterMap validateFile := by
  intro fl
  induction fl with
  | nil => intro k; exact ⟨rfl, rfl⟩
  | cons f rest ih =>
    intro k
    cases hv : validateFile f with
    | some e =>
      have h1 := (ih k).1
      have h2 := (ih k).2
      simp [processLoop, hv, h1, h2, List.filter_cons, List.filterMap_cons]
    | none =>
      have h1 := (ih (k + 1)).1
      have h2 := (ih (k + 1)).2
      simp [processLoop, hv, h1, h2, List.filter_cons, List.filterMap_cons]

/-- C4: when the combined file count would exceed MAX_FILES or the combined
byte size would exceed TOTAL_MAX_SIZE, the whole batch is refused: the
accepted-file set is returned unchanged (no file of the batch is added) and
only an error toast is emitted. -/
theorem processFiles_refuses_over_limits :
    ∀ (gen : Nat → String × String) (files : List FileWithPreview)
      (fileList : List FileRec),
      (files.length + fileList.length > MAX_FILES ∨
        files.foldl (fun sum f => sum + f.file.size) 0 +
          fileList.foldl (fun sum f => sum + f.size) 0 > TOTAL_MAX_SIZE) →
      (processFiles gen files fileList).1 = files ∧
      (∀ t ∈ (processFiles gen files fileList).2, t.kind = ToastKind.error) := by
  intro gen files fileList h
  by_cases h1 : files.length + fileList.length > MAX_FILES
  · simp [processFiles, h1]
  · have h2 := h.resolve_left h1
    have hres : processFiles gen files fileList
        = (files, [⟨ToastKind.error, "Total file size exceeds 500MB limit."⟩]) := by
      simp only [processFiles, if_neg h1, if_pos h2]
    rw [hres]
    exact ⟨rfl, by intro t ht; simp at ht; rw [ht]⟩

/-- Witness for C4: adding a 101st batch entry to a 100-file set is refused and
the set stays what it was. -/
theorem processFiles_refuses_over_limits_witness :
    (processFiles (fun n => (toString n, toString n))
        (List.replicate 100 ⟨⟨"a.jpg", 10, "image/jpeg"⟩, "blob:1", "a-1"⟩)
        [⟨"b.jpg", 10, "image/jpeg"⟩]).1
      = List.replicate 100 ⟨⟨"a.jpg", 10, "image/jpeg"⟩, "blob:1", "a-1"⟩ :=
  (processFiles_refuses_over_limits _ _ _ (Or.inl (by decide))).1

/-- C5: a file passes validateFile exactly when its MIME type is one of the six
accepted image types and its size does not exceed the 10MB per-file ceiling;
and in a batch below the count and aggregate-size limits, the files added are
exactly the previous ones followed by the valid batch members in order, while
every invalid batch member surfaces its validation error as an error toast. -/
theorem validateFile_gates_each_file :
    ∀ (gen : Nat → String × String) (files : List FileWithPreview)
      (fileList : List FileRec),
      ¬ files.length + fileList.length > MAX_FILES →
      ¬ files.foldl (fun sum f => sum + f.file.size) 0 +
          fileList.foldl (fun sum f => sum + f.size) 0 > TOTAL_MAX_SIZE →
      (∀ f : FileRec, validateFile f = none ↔
          f.type ∈ ACCEPTED_TYPES ∧ f.size ≤ MAX_FILE_SIZE) ∧
      (processFiles gen files fileList).1.map FileWithPreview.file
        = files.map FileWithPreview.file
          ++ fileList.filter (fun f => (validateFile f).isNone) ∧
      (∀ f ∈ fileList, ∀ e, validateFile f = some e →
        Toast.mk ToastKind.error e ∈ (processFiles gen files fileList).2) := by
  intro gen files fileList h1 h2
  have hred : processFiles gen files fileList
      = (if (processLoop gen 0 fileList).1.length > 0 then
           files ++ (processLoop gen 0 fileList).1
         else files,
         (processLoop gen 0 fileList).2.map (fun e => Toast.mk ToastKind.error e)
           ++ (if (processLoop gen 0 fileList).1.length > 0 then
                [⟨ToastKind.success,
                  "Added " ++ toString (processLoop gen 0 fileList).1.length
                    ++ " file(s)"⟩]
              else [])) := by
    simp only [processFiles, if_neg h1, if_neg h2]
  refine ⟨?_, ?_, ?_⟩
  · intro f
    by_cases hc : f.type ∈ ACCEPTED_TYPES
    · by_cases hs : f.size > MAX_FILE_SIZE
      · simp [validateFile, hc, hs]
        try omega
      · simp [validateFile, hc, hs]
        try omega
    · simp [validateFile, hc]
  · by_cases hn : (processLoop gen 0 fileList).1.length > 0
    · rw [hred]
      simp only [if_pos hn, List.map_append, (processLoop_spec gen fileList 0).1]
    · rw [hred]
      simp only [if_neg hn]
      have hz : (processLoop gen 0 fileList).1 = [] :=
        List.length_eq_zero.mp (by omega)
      have hfil : fileList.filter (fun f => (validateFile f).isNone) = [] := by
        rw [← (processLoop_spec gen fileList 0).1, hz]
        rfl
      rw [hfil, List.append_nil]
  · intro f hf e he
    have he2 : e ∈ (processLoop gen 0 fileList).2 := by
      rw [(processLoop_spec gen fileList 0).2]
      exact List.mem_filterMap.mpr ⟨f, hf, he⟩
    rw [hred]
    exact List.mem_append_left _ (List.mem_map_of_mem _ he2)

/-- Witness for C5: in a two-file batch with one valid JPEG and one text file,
the valid file is added and the invalid one is rejected with its error toast. -/
theorem validateFile_gates_each_file_witness :
    (processFiles (fun n => (toString n, toString n)) []
        [⟨"a.jpg", 10, "image/jpeg"⟩, ⟨"b.txt", 10, "text/plain"⟩]).1.map
        FileWithPreview.file
      = [⟨"a.jpg", 10, "image/jpeg"⟩] ∧
    Toast.mk ToastKind.error
        ("Invalid file type: text/plain. Only JPEG, PNG, GIF, BMP, TIFF, and WebP are allowed.")
      ∈ (processFiles (fun n => (toString n, toString n)) []
          [⟨"a.jpg", 10, "image/jpeg"⟩, ⟨"b.txt", 10, "text/plain"⟩]).2 := by
  refine ⟨?_, ?_⟩
  · have h := (validateFile_gates_each_file (fun n => (toString n, toString n))
        [] [⟨"a.jpg", 10, "image/jpeg"⟩, ⟨"b.txt", 10, "text/plain"⟩]
        (by decide) (by decide)).2.1
    rw [h]
    rfl
  · exact (validateFile_gates_each_file (fun n => (toString n, toString n))
        [] [⟨"a.jpg", 10, "image/jpeg"⟩, ⟨"b.txt", 10, "text/plain"⟩]
        (by decide) (by decide)).2.2
      ⟨"b.txt", 10, "text/plain"⟩ (by decide) _ (by decide)

/-- The onSuccess continuation of the create mutation (and of the px-mode then
branch): stores a locally synthesized pending job under the returned job id. -/
def createCollageOnSuccess (s : MakerState) (job_id : String) (now : String) :
    MakerState × List Toast :=
  let job : CollageJob :=
    { job_id := job_id, status := JobStatus.pending, created_at := now,
      progress := 0 }
  ({ s with currentJob := some job },
   [⟨ToastKind.success, "Collage creation started!"⟩])

/-- The handleDownload handler of collage-maker.tsx (newest revision): does
nothing when there is no current job or its id is falsy; otherwise fetches the
artifact for the job id and saves it under a filename built from the job id
and the output format remembered at submission.  Returns the request issued
and the suggested filename. -/
def handleDownload (s : MakerState) : Option (NetworkRequest × String) :=
  match s.currentJob with
  | none => none
  | some job =>
    if job.job_id = "" then none
    else
      some (NetworkRequest.download job.job_id,
        "collage-" ++ job.job_id ++ "." ++ s.currentOutputFormat)

/-- C8: after a submission that chose an output format, downloading the
resulting job issues the download request for that job id and suggests the
filename collage-(job id).(format): the name is derived from both the job id
and the output encoding configured at submission (defaulting to jpeg when the
optional format was omitted). -/
theorem download_filename_matches_format :
    ∀ (s : MakerState) (config : CollageFormConfig) (jobId now : String),
      ¬ s.files.length < 2 → jobId ≠ "" →
      handleDownload
          (createCollageOnSuccess (handleCreateCollage s config).1 jobId now).1
        = some (NetworkRequest.download jobId,
            "collage-" ++ jobId ++ "."
              ++ ((config.output_format).map OutputFormat.wireName).getD "jpeg") := by
  intro s config jobId now h2 hid
  have hcc : (handleCreateCollage s config).1
      = { s with currentOutputFormat :=
            ((config.output_format).map OutputFormat.wireName).getD "jpeg" } := by
    unfold handleCreateCollage
    rw [if_neg h2]
    by_cases hm : config.mode = "px" <;> simp [hm]
  rw [hcc]
  simp [createCollageOnSuccess, handleDownload, hid]

/-- Witness for C8: submitting two files with png as the output format and
then downloading job-1 suggests collage-job-1.png. -/
theorem download_filename_matches_format_witness :
    handleDownload
        (createCollageOnSuccess
          (handleCreateCollage
            { files := [⟨⟨"a.jpg", 10, "image/jpeg"⟩, "blob:1", "a-1"⟩,
                        ⟨⟨"b.jpg", 10, "image/jpeg"⟩, "blob:2", "b-2"⟩],
              currentJob := none, currentOutputFormat := "jpeg",
              gridOptimization := none, showGridOptimization := false }
            { mode := "mm", width_mm := some 150, height_mm := some 100,
              dpi := 150, layout_style := "grid", spacing := 30,
              background_color := "#FFFFFF", maintain_aspect := true,
              apply_shadow := false, output_format := some OutputFormat.png,
              transparency := some false }).1 "job-1" "t0").1
      = some (NetworkRequest.download "job-1", "collage-job-1.png") := by
  have h := download_filename_matches_format
      { files := [⟨⟨"a.jpg", 10, "image/jpeg"⟩, "blob:1", "a-1"⟩,
                  ⟨⟨"b.jpg", 10, "image/jpeg"⟩, "blob:2", "b-2"⟩],
        currentJob := none, currentOutputFormat := "jpeg",
        gridOptimization := none, showGridOptimization := false }
      { mode := "mm", width_mm := some 150, height_mm := some 100,
        dpi := 150, layout_style := "grid", spacing := 30,
        background_color := "#FFFFFF", maintain_aspect := true,
        apply_shadow := false, output_format := some OutputFormat.png,
        transparency := some false }
      "job-1" "t0" (by decide) (by decide)
  rw [h]
  rfl

/-- Environment tracking object-URL handles: createObjectURL appends to
created, revokeObjectURL appends to revoked.  A handle is leaked while it is
in created but not in revoked. -/
structure UrlEnv where
  created : List String
  revoked : List String
deriving DecidableEq, Repr

/-- The removeFile handler of file-upload.tsx: keeps every file whose id
differs and, as a side effect of the filter callback, revokes the preview
handle of each file with the given id before dropping it. -/
def removeFile (files : List FileWithPreview) (env : UrlEnv) (id : String) :
    List FileWithPreview × UrlEnv :=
  (files.filter (fun f => f.id != id),
   { env with revoked := env.revoked
      ++ (files.filter (fun f => f.id == id)).map FileWithPreview.preview })

/-- The handleReset handler of collage-maker.tsx (newest revision): clears the
job, remembered format and grid panel, leaves the file set alone and revokes
no preview handle. -/
def handleReset (s : MakerState) (env : UrlEnv) : MakerState × UrlEnv :=
  ({ s with currentJob := none, currentOutputFormat := "jpeg",
            gridOptimization := none, showGridOptimization := false }, env)

/-- The handleReset handler of the earlier revision of the component (setFiles
to the empty list and clear the job): empties the file set but revokes no
preview handle either. -/
def handleResetLegacy (files : List FileWithPreview)
    (currentJob : Option CollageJob) (env : UrlEnv) :
    (List FileWithPreview × Option CollageJob) × UrlEnv :=
  (([], none), env)

/-- C9 evaluated at the failing input: removing a file individually does revoke
its handle, but a full session reset revokes nothing - the legacy reset empties
the file set leaving the created handle unrevoked, and the newest reset does
not even clear the file set, so a created preview handle remains unrevoked
after reset, contradicting the claim. -/
theorem reset_leaves_preview_handle_unrevoked :
    (removeFile [⟨⟨"a.jpg", 10, "image/jpeg"⟩, "blob:1", "a-1"⟩]
        { created := ["blob:1"], revoked := [] } "a-1").2.revoked = ["blob:1"] ∧
    (handleResetLegacy [⟨⟨"a.jpg", 10, "image/jpeg"⟩, "blob:1", "a-1"⟩] none
        { created := ["blob:1"], revoked := [] }).1.1 = [] ∧
    (handleResetLegacy [⟨⟨"a.jpg", 10, "image/jpeg"⟩, "blob:1", "a-1"⟩] none
        { created := ["blob:1"], revoked := [] }).2
      = { created := ["blob:1"], revoked := [] } ∧
    (handleReset
        { files := [⟨⟨"a.jpg", 10, "image/jpeg"⟩, "blob:1", "a-1"⟩],
          currentJob := none, currentOutputFormat := "jpeg",
          gridOptimization := none, showGridOptimization := false }
        { created := ["blob:1"], revoked := [] }).2.revoked = [] ∧
    (handleReset
        { files := [⟨⟨"a.jpg", 10, "image/jpeg"⟩, "blob:1", "a-1"⟩],
          currentJob := none, currentOutputFormat := "jpeg",
          gridOptimization := none, showGridOptimization := false }
        { created := ["blob:1"], revoked := [] }).1.files
      = [⟨⟨"a.jpg", 10, "image/jpeg"⟩, "blob:1", "a-1"⟩] := by
  refine ⟨by decide, rfl, rfl, rfl, rfl⟩

/-- A JS value as it reaches the form-data serializers: either a defined value
abstracted by its String() rendering, or undefined (String() of which is the
literal "undefined"). -/
inductive JsValue where
  | defined (rendering : String)
  | undef
deriving DecidableEq, Repr

/-- String() applied to a JS value. -/
def jsString : JsValue → String
  | JsValue.defined r => r
  | JsValue.undef => "undefined"

/-- One part of a multipart form body: a file part or a string field. -/
inductive FormPart where
  | filePart (f : FileRec)
  | fieldPart (s : String)
deriving DecidableEq, Repr

/-- ApiClient.createCollage body assembly (lib/api.ts): appends every file
under the key files, then walks Object.entries of the request and appends
every property except files as String(value) - undefined-valued properties
included. -/
def createCollageFormBody (files : List FileRec)
    (entries : List (String × JsValue)) : List (String × FormPart) :=
  files.map (fun f => ("files", FormPart.filePart f))
    ++ (entries.filter (fun e => e.1 != "files")).map
        (fun e => (e.1, FormPart.fieldPart (jsString e.2)))

/-- ApiClient.optimizeGrid body assembly (lib/api.ts): walks Object.entries
and appends only the properties whose value is not undefined. -/
def optimizeGridFormBody (entries : List (String × JsValue)) :
    List (String × FormPart) :=
  (entries.filter (fun e => e.2 != JsValue.undef)).map
    (fun e => (e.1, FormPart.fieldPart (jsString e.2)))

/-- C10: createCollage appends every enumerable property other than files as
its String() rendering - none omitted (the body length is exactly the file
count plus the non-files property count, and each such property contributes
its rendered field); a property present with value undefined is sent as the
literal string "undefined"; optimizeGrid by contrast only emits fields coming
from defined-valued properties. -/
theorem formBody_undefined_handling :
    ∀ (files : List FileRec) (entries : List (String × JsValue)) (k : String)
      (v : JsValue),
      ((k, v) ∈ entries → k ≠ "files" →
        (k, FormPart.fieldPart (jsString v)) ∈ createCollageFormBody files entries) ∧
      ((k, JsValue.undef) ∈ entries → k ≠ "files" →
        (k, FormPart.fieldPart "undefined") ∈ createCollageFormBody files entries) ∧
      (∀ p, (k, p) ∈ optimizeGridFormBody entries →
        ∃ w, (k, w) ∈ entries ∧ w ≠ JsValue.undef
          ∧ p = FormPart.fieldPart (jsString w)) ∧
      (createCollageFormBody files entries).length
        = files.length + (entries.filter (fun e => e.1 != "files")).length := by
  intro files entries k v
  refine ⟨?_, ?_, ?_, ?_⟩
  · intro hm hk
    apply List.mem_append_right
    refine List.mem_map.mpr ⟨(k, v), ?_, rfl⟩
    refine List.mem_filter.mpr ⟨hm, ?_⟩
    simp [hk]
  · intro hm hk
    apply List.mem_append_right
    refine List.mem_map.mpr ⟨(k, JsValue.undef), ?_, rfl⟩
    refine List.mem_filter.mpr ⟨hm, ?_⟩
    simp [hk]
  · intro p hp
    obtain ⟨e, hef, heq⟩ := List.mem_map.mp hp
    obtain ⟨hme, hdef⟩ := List.mem_filter.mp hef
    refine ⟨e.2, ?_, ?_, ?_⟩
    · have : e = (k, e.2) := by
        obtain ⟨e1, e2⟩ := e
        cases heq
        rfl
      rw [← this]
      exact hme
    · simpa using hdef
    · cases heq
      rfl
  · simp [createCollageFormBody]

/-- Witness for C10: in a request whose output_format property is present with
value undefined, the createCollage body carries the field
output_format=undefined alongside the file part. -/
theorem formBody_undefined_handling_witness :
    ("output_format", FormPart.fieldPart "undefined")
      ∈ createCollageFormBody [⟨"a.jpg", 10, "image/jpeg"⟩]
          [("width_mm", JsValue.defined "150"),
           ("output_format", JsValue.undef)] :=
  (formBody_undefined_handling [⟨"a.jpg", 10, "image/jpeg"⟩]
      [("width_mm", JsValue.defined "150"), ("output_format", JsValue.undef)]
      "output_format" JsValue.undef).2.1 (by decide) (by decide)
